import Mathlib

/-!
Verification of the AccentChanger session core (`src/app.py`).

The program keeps a per-session state of three fields
(`st.session_state['text']`, `['run']`, `['status']`) and mutates it in
`start_transcription`, `stop_transcription`, `listen_and_transcribe`
and the convert branch of `main`.  External services (the speech
recogniser and AWS Polly) are modelled by their outcome: the branch of
the Python `try`/`except` that runs, respectively whether client
initialisation or `synthesize_speech` fails.
-/

namespace AccentChanger

/-- The Streamlit session state: `text` is `st.session_state['text']`,
`run` is `st.session_state['run']`, `status` is `st.session_state['status']`. -/
structure SessionState where
  text : String
  run : Bool
  status : String
deriving Repr, DecidableEq

/-- Initial values set at lines 31-36 of `app.py`. -/
def initState : SessionState :=
  { text := "", run := false, status := "Ready to start recording." }

/-- `start_transcription` (app.py lines 39-42). -/
def start_transcription (s : SessionState) : SessionState :=
  { s with run := true, text := "",
           status := "Recording started. Please speak clearly." }

/-- `stop_transcription` (app.py lines 44-46). -/
def stop_transcription (s : SessionState) : SessionState :=
  { s with run := false,
           status := "Recording stopped. Processing final text..." }

/-- Outcome of one recognition attempt inside `listen_and_transcribe`:
either `recognize_google` returns text, or one of the `except` branches
runs (`sr.UnknownValueError`, `sr.WaitTimeoutError`, `sr.RequestError e`,
or any other `Exception e`). -/
inductive RecResult where
  | success (t : String)
  | unknownValue
  | waitTimeout
  | requestError (e : String)
  | otherError (e : String)
deriving Repr, DecidableEq

/-- `True` for the four `except` branches of `listen_and_transcribe`. -/
def RecResult.isFailure : RecResult → Bool
  | .success _ => false
  | _ => true

/-- Constructor tag, to talk about "failure kinds" irrespective of the
error detail carried by `RequestError`/generic `Exception`. -/
def RecResult.kind : RecResult → Nat
  | .success _ => 0
  | .unknownValue => 1
  | .waitTimeout => 2
  | .requestError _ => 3
  | .otherError _ => 4

/-- `listen_and_transcribe` (app.py lines 65-94), as the final session
state after one capture attempt with outcome `r`.  The interim writes
(`"Listening... Please speak."`, `"Processing speech..."`) are
overwritten in every branch before the function returns.  On success
the code runs `st.session_state['text'] += " " + transcribed_text`,
i.e. it appends `" " ++ t`.  `run` is not touched in any branch. -/
def listen_and_transcribe (s : SessionState) (r : RecResult) : SessionState :=
  match r with
  | .success t =>
      { s with text := s.text ++ (" " ++ t),
               status := "Transcription successful!" }
  | .unknownValue =>
      { s with status := "Could not understand the audio." }
  | .waitTimeout =>
      { s with status := "Listening timed out, waiting for speech..." }
  | .requestError e =>
      { s with status := "API request error: " ++ e }
  | .otherError e =>
      { s with status := "Error occurred: " ++ e }

/-- One recorded call to `polly.synthesize_speech` (its `Text` and
`VoiceId` arguments; app.py line 55). -/
structure SynthCall where
  text : String
  voiceId : String
deriving Repr, DecidableEq

/-- Behaviour of the Polly side for one convert attempt:
`initFail` - `initialize_polly_client` returns `None`;
`synthFail e` - the client exists but `synthesize_speech` raises `e`;
`ok f` - synthesis succeeds and the audio lands in temp file `f`. -/
inductive PollyEnv where
  | initFail
  | synthFail (e : String)
  | ok (file : String)
deriving Repr, DecidableEq

/-- The voice identifier the program is configured with: the default
parameter of `text_to_speech` (app.py line 49) and the explicit
argument at the call site (line 176) are both `'Aditi'`. -/
def default_voice_id : String := "Aditi"

/-- `text_to_speech` (app.py lines 49-62): returns the temp-file name
on success and `None` on any failure, paired with the list of
`synthesize_speech` calls it made.  When client initialisation fails
the function returns before any synthesis call. -/
def text_to_speech (env : PollyEnv) (text : String)
    (voice_id : String := default_voice_id) : Option String × List SynthCall :=
  match env with
  | .initFail => (none, [])
  | .synthFail _ => (none, [⟨text, voice_id⟩])
  | .ok file => (some file, [⟨text, voice_id⟩])

/-- Result of one convert attempt: the session state afterwards, the
synthesis calls made, and the audio artifact handed to `st.audio`
(if any). -/
structure ConvertResult where
  state : SessionState
  calls : List SynthCall
  audio : Option String
deriving Repr, DecidableEq

/-- The convert branch of `main` (app.py lines 172-178): the button
exists only under `if not st.session_state['run'] and
st.session_state['text']:` (Python string truthiness = non-empty);
when pressed it calls `text_to_speech` on the full transcript with
`voice_id='Aditi'` and plays the result if it is not `None`.
Outside the guard the attempt does nothing. -/
def convert (env : PollyEnv) (s : SessionState) : ConvertResult :=
  if !s.run && s.text != "" then
    let r := text_to_speech env s.text default_voice_id
    { state := s, calls := r.2, audio := r.1 }
  else
    { state := s, calls := [], audio := none }

/-- A UI action that drives the session state machine. -/
inductive Event where
  | start
  | stop
  | capture (r : RecResult)
deriving Repr, DecidableEq

/-- One transition of the state machine. -/
def step (s : SessionState) : Event → SessionState
  | .start => start_transcription s
  | .stop => stop_transcription s
  | .capture r => listen_and_transcribe s r

/-- Run a sequence of transitions from `s`. -/
def runTrace (s : SessionState) (es : List Event) : SessionState :=
  es.foldl step s

/-- `True` exactly on `start`/`stop` events. -/
def Event.isStartStop : Event → Bool
  | .start => true
  | .stop => true
  | .capture _ => false

/-- The `start`/`stop` events of a trace, in order. -/
def startStops (es : List Event) : List Event :=
  es.filter Event.isStartStop

end AccentChanger

namespace AccentChanger

/-- Strings with different first characters are different. -/
lemma ne_of_head_ne (a b : String) (h : a.data.head? ≠ b.data.head?) : a ≠ b :=
  fun e => h (by rw [e])

/-- The recording flag after a trace is decided by the last `start`/`stop`
event alone; capture events pass it through. -/
lemma run_runTrace (es : List Event) (s : SessionState) :
    (runTrace s es).run =
      match (startStops es).getLast? with
      | some Event.start => true
      | some _ => false
      | none => s.run := by
  induction es using List.reverseRecOn with
  | nil => rfl
  | append_singleton l e ih =>
    cases e with
    | start =>
        simp [runTrace, List.foldl_append, startStops, List.filter_append,
          Event.isStartStop, List.getLast?_concat, step, start_transcription]
    | stop =>
        simp [runTrace, List.foldl_append, startStops, List.filter_append,
          Event.isStartStop, List.getLast?_concat, step, stop_transcription]
    | capture r =>
        have h1 : runTrace s (l ++ [Event.capture r]) =
            step (runTrace s l) (Event.capture r) := by
          simp [runTrace, List.foldl_append]
        have h2 : startStops (l ++ [Event.capture r]) = startStops l := by
          simp [startStops, List.filter_append, Event.isStartStop]
        have hrun : (step (runTrace s l) (Event.capture r)).run =
            (runTrace s l).run := by
          cases r <;> rfl
        rw [h1, h2, hrun]
        exact ih

/-- C1: over any sequence of `start()`/`stop()`/`captureUtterance()`
transitions from the initial session state, `recording` is true iff the
most recent `start`/`stop` call was `start`; and no capture outcome ever
changes the recording flag. -/
theorem recording_tracks_start_stop :
    (∀ es : List Event,
        ((runTrace initState es).run = true ↔
          (startStops es).getLast? = some Event.start)) ∧
    (∀ (s : SessionState) (r : RecResult),
        (listen_and_transcribe s r).run = s.run) := by
  constructor
  · intro es
    have h := run_runTrace es initState
    cases hl : (startStops es).getLast? with
    | none => rw [hl] at h; simp at h; rw [h]; simp [initState]
    | some a => cases a <;> rw [hl] at h <;> simp [h]
  · intro s r; cases r <;> rfl

/-- C2: a successful capture returning `t` sets `transcript` to
`old ++ " " ++ t` (leading space unconditional), and two successes
`"hello"` then `"world"` from the empty transcript yield
`" hello world"`. -/
theorem transcript_append_on_success :
    (∀ (s : SessionState) (t : String),
        (listen_and_transcribe s (RecResult.success t)).text =
          s.text ++ " " ++ t) ∧
    (runTrace initState
        [Event.capture (RecResult.success "hello"),
         Event.capture (RecResult.success "world")]).text = " hello world" := by
  constructor
  · intro s t
    show s.text ++ (" " ++ t) = s.text ++ " " ++ t
    exact (String.append_assoc s.text " " t).symm
  · rfl

/-- C3: the convert action is gated on `recording == false` and a
non-empty transcript: with `recording == true` it is a complete no-op,
and with an empty transcript the synthesis client is never called. -/
theorem convert_gating (env : PollyEnv) (s : SessionState) :
    (s.run = true →
        convert env s = { state := s, calls := [], audio := none }) ∧
    (s.text = "" → (convert env s).calls = []) := by
  constructor
  · intro h; simp [convert, h]
  · intro h; simp [convert, h]

/-- Witness for C3 at concrete states. -/
theorem convert_gating_witness :
    convert PollyEnv.initFail { text := "hi", run := true, status := "x" } =
      { state := { text := "hi", run := true, status := "x" },
        calls := [], audio := none } ∧
    (convert (PollyEnv.ok "f.mp3")
        { text := "", run := false, status := "x" }).calls = [] :=
  ⟨(convert_gating PollyEnv.initFail _).1 rfl,
   (convert_gating (PollyEnv.ok "f.mp3") _).2 rfl⟩

/-- C4: every recognition failure is handled inside
`listen_and_transcribe` (the embedding is total on the failure
outcomes), leaves `recording` unchanged, and distinct failure kinds
always produce distinct status messages, whatever error details they
carry. -/
theorem capture_failure_handling :
    (∀ (s : SessionState) (r : RecResult), r.isFailure = true →
        (listen_and_transcribe s r).run = s.run) ∧
    (∀ (s s' : SessionState) (r r' : RecResult), r.isFailure = true →
        r'.isFailure = true → r.kind ≠ r'.kind →
        (listen_and_transcribe s r).status ≠
          (listen_and_transcribe s' r').status) := by
  constructor
  · intro s r _; cases r <;> rfl
  · intro s s' r r' h h' hk heq
    have hh := congrArg (fun t : String => t.data.head?) heq
    cases r <;> cases r' <;>
      first
        | exact Bool.false_ne_true h
        | exact Bool.false_ne_true h'
        | exact hk rfl
        | simp [listen_and_transcribe] at hh

/-- Witness for C4 at concrete failure outcomes. -/
theorem capture_failure_handling_witness :
    (listen_and_transcribe initState RecResult.unknownValue).run =
      initState.run ∧
    (listen_and_transcribe initState RecResult.unknownValue).status ≠
      (listen_and_transcribe initState RecResult.waitTimeout).status :=
  ⟨capture_failure_handling.1 initState RecResult.unknownValue rfl,
   capture_failure_handling.2 initState initState RecResult.unknownValue
     RecResult.waitTimeout rfl rfl (by decide)⟩

/-- C5: after `start`, a capture succeeding with `"testing one two"`,
and `stop`, the convert action makes exactly one synthesis call, with
text `" testing one two"` and the configured default voice — provided
the Polly client initialises (otherwise no call can be made at all). -/
theorem end_to_end_synthesis (env : PollyEnv) (h : env ≠ PollyEnv.initFail) :
    (convert env (runTrace initState
        [Event.start, Event.capture (RecResult.success "testing one two"),
         Event.stop])).calls =
      [{ text := " testing one two", voiceId := default_voice_id }] := by
  cases env with
  | initFail => exact absurd rfl h
  | synthFail e => rfl
  | ok f => rfl

/-- Witness for C5 with a successfully initialised client. -/
theorem end_to_end_synthesis_witness :
    (convert (PollyEnv.ok "out.mp3") (runTrace initState
        [Event.start, Event.capture (RecResult.success "testing one two"),
         Event.stop])).calls =
      [{ text := " testing one two", voiceId := default_voice_id }] :=
  end_to_end_synthesis (PollyEnv.ok "out.mp3") (fun h => PollyEnv.noConfusion h)

/-- C6: from any prior state, `start()` clears the transcript and sets
the recording flag. -/
theorem start_resets (s : SessionState) :
    (start_transcription s).text = "" ∧ (start_transcription s).run = true :=
  ⟨rfl, rfl⟩

/-- C7 counterexample: the code's status strings are
`"Recording started. Please speak clearly."` and
`"Recording stopped. Processing final text..."`, not
`"Recording started..."` / `"Recording stopped..."`. -/
theorem start_stop_status_counterexample :
    ¬ ((start_transcription initState).status = "Recording started..." ∧
       (stop_transcription initState).status = "Recording stopped...") := by
  intro h
  exact absurd h.1 (by decide)

/-- C7 (amended): `start()` sets the status to exactly
`"Recording started. Please speak clearly."` and `stop()` to exactly
`"Recording stopped. Processing final text..."`. -/
theorem start_stop_status (s : SessionState) :
    (start_transcription s).status =
      "Recording started. Please speak clearly." ∧
    (stop_transcription s).status =
      "Recording stopped. Processing final text..." :=
  ⟨rfl, rfl⟩

/-- C8 counterexample: if the status before the capture already reads
`"Could not understand the audio."`, a NoSpeechDetected failure sets
the very same string, so the new status is not different from the old
one. -/
theorem noSpeech_status_counterexample :
    ¬ ((listen_and_transcribe
          { text := "t", run := true,
            status := "Could not understand the audio." }
          RecResult.unknownValue).text = "t" ∧
       (listen_and_transcribe
          { text := "t", run := true,
            status := "Could not understand the audio." }
          RecResult.unknownValue).status ≠
         "Could not understand the audio.") :=
  fun h => h.2 rfl

/-- C8 (amended): a NoSpeechDetected failure leaves the transcript
unchanged and sets the status to the fixed warning
`"Could not understand the audio."`, which differs from the prior
status whenever the prior status is not already that message. -/
theorem noSpeech_frame (s : SessionState) :
    (listen_and_transcribe s RecResult.unknownValue).text = s.text ∧
    (listen_and_transcribe s RecResult.unknownValue).status =
      "Could not understand the audio." ∧
    (s.status ≠ "Could not understand the audio." →
      (listen_and_transcribe s RecResult.unknownValue).status ≠ s.status) :=
  ⟨rfl, rfl, fun h hc => h hc.symm⟩

/-- Witness for C8's amended theorem at the initial state. -/
theorem noSpeech_frame_witness :
    (listen_and_transcribe initState RecResult.unknownValue).text =
      initState.text ∧
    (listen_and_transcribe initState RecResult.unknownValue).status ≠
      initState.status :=
  ⟨(noSpeech_frame initState).1, (noSpeech_frame initState).2.2 (by decide)⟩

/-- C9: every failure outcome of a capture — NoSpeechDetected, timeout,
request failure, or any other exception — leaves the transcript exactly
unchanged. -/
theorem failures_preserve_transcript (s : SessionState) (r : RecResult)
    (h : r.isFailure = true) :
    (listen_and_transcribe s r).text = s.text := by
  cases r <;> simp_all [RecResult.isFailure, listen_and_transcribe]

/-- Witness for C9 at a concrete failure. -/
theorem failures_preserve_transcript_witness :
    (listen_and_transcribe initState RecResult.waitTimeout).text =
      initState.text :=
  failures_preserve_transcript initState RecResult.waitTimeout rfl

/-- The convert action never mutates the session state. -/
lemma convert_state (env : PollyEnv) (s : SessionState) :
    (convert env s).state = s := by
  unfold convert; split <;> rfl

/-- C10: when Polly client initialisation fails or the synthesis
request raises, `text_to_speech` returns `None`, the convert action
yields no audio artifact, and the transcript and recording flag are
unchanged. -/
theorem tts_failure_yields_none (t v e : String) (s : SessionState)
    (env : PollyEnv) :
    (text_to_speech PollyEnv.initFail t v).1 = none ∧
    (text_to_speech (PollyEnv.synthFail e) t v).1 = none ∧
    (convert PollyEnv.initFail s).audio = none ∧
    (convert (PollyEnv.synthFail e) s).audio = none ∧
    (convert env s).state.text = s.text ∧
    (convert env s).state.run = s.run := by
  refine ⟨rfl, rfl, ?_, ?_, ?_, ?_⟩
  · unfold convert; split <;> rfl
  · unfold convert; split <;> rfl
  · rw [convert_state]
  · rw [convert_state]

end AccentChanger
